import Mathlib

/-!
Shallow embedding of `find_img_my_face.py` and `test.py` from the
repository `sagi-stav/find-images-with-my-face`.

The external collaborator `face_recognition` is abstracted as oracles:
an embedding type `E`, a distance function `dist : E → E → ℚ`, and per-file
scan results.  Filesystem effects (directory listing, per-file load) are
passed in as values; copies performed are recorded in the result.
-/

namespace FindFace

/-- Result of `load_image_file` + `face_locations` + `face_encodings` for one
album file, as observed inside the per-candidate `try` block of
`find_and_save_matching_faces`:
`failure e` models an exception raised while loading / detecting / encoding,
`noFace` models `face_locations == []`,
`faces encs` models nonempty `face_locations` with encodings `encs`. -/
inductive FaceScan (E : Type) where
  | failure : String → FaceScan E
  | noFace : FaceScan E
  | faces : List E → FaceScan E
deriving DecidableEq

/-- The per-candidate classification implicit in the branches of the
processing loop of `find_and_save_matching_faces`. -/
inductive MatchDecision where
  | Matched
  | NoFaceDetected
  | NoMatch
  | ProcessingError
deriving DecidableEq, BEq, Repr

/-- `load_reference_faces` (lines 36-60): per reference image, the result of
`load_image_file` + `face_encodings` is an `Except` (exception or encoding
list); an exception or an empty encoding list contributes nothing, otherwise
the first encoding `ref_encoding[0]` is appended. -/
def load_reference_faces {E : Type} : List (Except String (List E)) → List E
  | [] => []
  | Except.error _ :: rest => load_reference_faces rest
  | Except.ok [] :: rest => load_reference_faces rest
  | Except.ok (e :: _) :: rest => e :: load_reference_faces rest

/-- `face_recognition.compare_faces(reference_encodings, face_encoding,
tolerance)`: one boolean per reference, true when the distance is within the
tolerance. -/
def compare_faces {E : Type} (dist : E → E → ℚ) (reference_encodings : List E)
    (face_encoding : E) (tolerance : ℚ) : List Bool :=
  reference_encodings.map (fun r => decide (dist r face_encoding ≤ tolerance))

/-- The `for face_encoding in face_encodings` loop (lines 133-144): at the
first encoding with `any(matches)` the file is copied (`shutil.copy2`),
`matched_images` is incremented and the loop breaks.  Returns
(matched-counter increment, number of copy operations performed). -/
def matchLoop {E : Type} (dist : E → E → ℚ) (refs : List E) (tol : ℚ) :
    List E → Nat × Nat
  | [] => (0, 0)
  | enc :: rest =>
    if (compare_faces dist refs enc tol).any id then (1, 1)
    else matchLoop dist refs tol rest

/-- One iteration of the candidate loop (lines 120-150): the `try` body with
its `else` and `except` branches.  Returns
(decision, matched increment, skipped increment, copies performed). -/
def processCandidate {E : Type} (dist : E → E → ℚ) (refs : List E) (tol : ℚ) :
    FaceScan E → MatchDecision × Nat × Nat × Nat
  | FaceScan.failure _ => (MatchDecision.ProcessingError, 0, 1, 0)
  | FaceScan.noFace => (MatchDecision.NoFaceDetected, 0, 1, 0)
  | FaceScan.faces encs =>
    (if 0 < (matchLoop dist refs tol encs).1 then MatchDecision.Matched
      else MatchDecision.NoMatch,
      (matchLoop dist refs tol encs).1, 0, (matchLoop dist refs tol encs).2)

/-- Accumulated state of the candidate loop: decisions per file, the two
counters of the script, and the filenames copied to the output folder. -/
structure ScanAcc where
  decisions : List (String × MatchDecision)
  matched : Nat
  skipped : Nat
  copied : List String
deriving DecidableEq

/-- The whole candidate loop `for filename in tqdm(image_files, ...)`
(lines 120-150), folding `processCandidate` over the admitted files. -/
def scanAlbum {E : Type} (dist : E → E → ℚ) (refs : List E) (tol : ℚ)
    (scanOf : String → FaceScan E) : List String → ScanAcc
  | [] => ⟨[], 0, 0, []⟩
  | f :: rest =>
    let r := processCandidate dist refs tol (scanOf f)
    let acc := scanAlbum dist refs tol scanOf rest
    ⟨(f, r.1) :: acc.decisions, r.2.1 + acc.matched, r.2.2.1 + acc.skipped,
      List.replicate r.2.2.2 f ++ acc.copied⟩

/-- ASCII model of Python `str.lower()`. -/
def pyLower (s : String) : String := ⟨s.data.map Char.toLower⟩

/-- `os.path.splitext` on a bare filename (no directory separators): the
extension starts at the last dot, unless every character before that dot is
itself a dot (leading dots are part of the root, so `.jpg` has no
extension). -/
def splitext (p : String) : String × String :=
  match p.data.reverse.span (fun c => c != '.') with
  | (_, []) => (p, "")
  | (revExt, _ :: revRoot) =>
    if revRoot.any (fun c => c != '.') then
      (⟨revRoot.reverse⟩, ⟨'.' :: revExt.reverse⟩)
    else (p, "")

/-- Default allow-list of `find_and_save_matching_faces` (line 95). -/
def defaultExtensions : List String := [".jpg", ".jpeg", ".png", ".bmp", ".gif"]

/-- Lines 94-105: default the allow-list, lowercase it, and keep the files
whose `splitext(f.lower())[1]` is in it. -/
def admittedFiles (file_extensions : Option (List String))
    (files : List String) : List String :=
  let exts := (file_extensions.getD defaultExtensions).map pyLower
  files.filter (fun f => exts.contains (splitext (pyLower f)).2)

/-- Observable outcome of one run of `find_and_save_matching_faces`:
whether `os.listdir` was reached, the per-candidate decisions, the final
counters, and the files copied. -/
structure RunResult where
  enumerated : Bool
  decisions : List (String × MatchDecision)
  matched : Nat
  skipped : Nat
  copied : List String
deriving DecidableEq

/-- `find_and_save_matching_faces` (lines 62-158).  `refScans` is the
load+encode outcome per reference path in order, `listing` the outcome of
`os.listdir(album_path)` (`error` = `PermissionError`), `scanOf` the
load+detect+encode outcome per album filename. -/
def find_and_save_matching_faces {E : Type} (dist : E → E → ℚ)
    (refScans : List (Except String (List E)))
    (listing : Except Unit (List String))
    (scanOf : String → FaceScan E)
    (tolerance : ℚ)
    (file_extensions : Option (List String)) : RunResult :=
  let reference_encodings := load_reference_faces refScans
  if reference_encodings.isEmpty then
    ⟨false, [], 0, 0, []⟩
  else
    match listing with
    | Except.error _ => ⟨true, [], 0, 0, []⟩
    | Except.ok files =>
      let image_files := admittedFiles file_extensions files
      let acc := scanAlbum dist reference_encodings tolerance scanOf image_files
      ⟨true, acc.decisions, acc.matched, acc.skipped, acc.copied⟩

/-- `validate_paths` (lines 12-34): expand/absolutize each path, keep those
that exist, in order. -/
def validate_paths (normalize : String → String) (existsAt : String → Bool)
    (paths : List String) : List String :=
  (paths.map normalize).filter existsAt

/-- Outcome of a run of `main` in CLI mode: either the pipeline completed
(printing its summary), or an exception escaped `main` uncaught. -/
inductive CLIOutcome where
  | completed : RunResult → CLIOutcome
  | uncaughtException : String → CLIOutcome
deriving DecidableEq

/-- The CLI branch of `main` (lines 258-283): validate the album path, the
output folder and the reference images, then run the pipeline.  The
subscripts `[0]` on lines 273-274 raise `IndexError` when `validate_paths`
returns an empty list. -/
def mainCLI {E : Type} (dist : E → E → ℚ)
    (normalize : String → String) (existsAt : String → Bool)
    (refScanOf : String → Except String (List E))
    (listing : Except Unit (List String))
    (scanOf : String → FaceScan E)
    (albumArg outputArg : String) (refArgs : List String)
    (tolerance : ℚ) (extensions : List String) : CLIOutcome :=
  match validate_paths normalize existsAt [albumArg] with
  | [] => CLIOutcome.uncaughtException "IndexError: list index out of range"
  | _ :: _ =>
    match validate_paths normalize existsAt [outputArg] with
    | [] => CLIOutcome.uncaughtException "IndexError: list index out of range"
    | _ :: _ =>
      let reference_images := validate_paths normalize existsAt refArgs
      CLIOutcome.completed (find_and_save_matching_faces dist
        (reference_images.map refScanOf) listing scanOf tolerance
        (some extensions))

/-- Reference loading of `test.py` (lines 12-19): `load_image_file` is not
wrapped in try/except, so a failing reference aborts the whole
construction. -/
def loadRefsStrict {E : Type} : List (Except String (List E)) →
    Except String (List E)
  | [] => Except.ok []
  | Except.error e :: _ => Except.error e
  | Except.ok l :: rest =>
    match loadRefsStrict rest with
    | Except.error e => Except.error e
    | Except.ok r =>
      match l with
      | [] => Except.ok r
      | e :: _ => Except.ok (e :: r)

/-- The candidate loop of `find_and_save_specific_face` in `test.py`
(lines 28-47): no try/except, so a failing candidate aborts the scan;
tolerance is hard-coded to 0.6. -/
def scanLoopStrict {E : Type} (dist : E → E → ℚ) (refs : List E)
    (scanOf : String → FaceScan E) : List String →
    Except String (Nat × List String)
  | [] => Except.ok (0, [])
  | f :: rest =>
    match scanOf f with
    | FaceScan.failure e => Except.error e
    | FaceScan.noFace => scanLoopStrict dist refs scanOf rest
    | FaceScan.faces encs =>
      let mc := matchLoop dist refs (6 / 10 : ℚ) encs
      match scanLoopStrict dist refs scanOf rest with
      | Except.error e => Except.error e
      | Except.ok p => Except.ok (mc.1 + p.1, List.replicate mc.2 f ++ p.2)

/-- `find_and_save_specific_face` from `test.py` (lines 8-49): strict
reference loading, early return on no usable reference, then the
unprotected candidate loop. -/
def find_and_save_specific_face {E : Type} (dist : E → E → ℚ)
    (refScans : List (Except String (List E)))
    (files : List String) (scanOf : String → FaceScan E) :
    Except String (Nat × List String) :=
  match loadRefsStrict refScans with
  | Except.error e => Except.error e
  | Except.ok refs =>
    if refs.isEmpty then Except.ok (0, [])
    else scanLoopStrict dist refs scanOf files

/-- Number of candidates in a decision list classified as `d`. -/
def countDecision (d : MatchDecision) (ds : List (String × MatchDecision)) : Nat :=
  (ds.filter (fun p => decide (p.2 = d))).length

theorem matchLoop_fst_le_one {E : Type} (dist : E → E → ℚ) (refs : List E) (tol : ℚ)
    (encs : List E) : (matchLoop dist refs tol encs).1 ≤ 1 := by
  induction encs with
  | nil => simp [matchLoop]
  | cons enc rest ih =>
    rw [matchLoop]
    split
    · exact le_refl 1
    · exact ih

theorem matchLoop_fst_eq_snd {E : Type} (dist : E → E → ℚ) (refs : List E) (tol : ℚ)
    (encs : List E) : (matchLoop dist refs tol encs).1 = (matchLoop dist refs tol encs).2 := by
  induction encs with
  | nil => rfl
  | cons enc rest ih =>
    simp only [matchLoop]
    split
    · rfl
    · exact ih

theorem compare_faces_any_iff {E : Type} (dist : E → E → ℚ) (refs : List E) (enc : E)
    (tol : ℚ) :
    (compare_faces dist refs enc tol).any id = true ↔ ∃ r ∈ refs, dist r enc ≤ tol := by
  simp [compare_faces, List.any_eq_true]

theorem matchLoop_pos_iff {E : Type} (dist : E → E → ℚ) (refs : List E) (tol : ℚ)
    (encs : List E) :
    0 < (matchLoop dist refs tol encs).1 ↔ ∃ e ∈ encs, ∃ r ∈ refs, dist r e ≤ tol := by
  induction encs with
  | nil => simp [matchLoop]
  | cons enc rest ih =>
    rw [matchLoop]
    by_cases h : (compare_faces dist refs enc tol).any id = true
    · rw [if_pos h]
      constructor
      · intro _
        obtain ⟨r, hr, hle⟩ := (compare_faces_any_iff dist refs enc tol).mp h
        exact ⟨enc, List.mem_cons_self enc rest, r, hr, hle⟩
      · intro _
        exact Nat.one_pos
    · rw [if_neg h, ih]
      constructor
      · rintro ⟨e, he, r, hr, hle⟩
        exact ⟨e, List.mem_cons_of_mem enc he, r, hr, hle⟩
      · rintro ⟨e, he, r, hr, hle⟩
        rcases List.mem_cons.mp he with rfl | he
        · exact absurd ((compare_faces_any_iff dist refs e tol).mpr ⟨r, hr, hle⟩) h
        · exact ⟨e, he, r, hr, hle⟩

theorem processCandidate_shape {E : Type} (dist : E → E → ℚ) (refs : List E) (tol : ℚ)
    (scan : FaceScan E) :
    processCandidate dist refs tol scan = (MatchDecision.Matched, 1, 0, 1)
    ∨ processCandidate dist refs tol scan = (MatchDecision.NoMatch, 0, 0, 0)
    ∨ processCandidate dist refs tol scan = (MatchDecision.NoFaceDetected, 0, 1, 0)
    ∨ processCandidate dist refs tol scan = (MatchDecision.ProcessingError, 0, 1, 0) := by
  cases scan with
  | failure e => exact Or.inr (Or.inr (Or.inr rfl))
  | noFace => exact Or.inr (Or.inr (Or.inl rfl))
  | faces encs =>
    have h1 := matchLoop_fst_le_one dist refs tol encs
    have h2 := matchLoop_fst_eq_snd dist refs tol encs
    by_cases hp : 0 < (matchLoop dist refs tol encs).1
    · refine Or.inl ?_
      have hm1 : (matchLoop dist refs tol encs).1 = 1 := by omega
      have hm2 : (matchLoop dist refs tol encs).2 = 1 := by omega
      simp [processCandidate, hp, hm1, hm2]
    · refine Or.inr (Or.inl ?_)
      have hm1 : (matchLoop dist refs tol encs).1 = 0 := by omega
      have hm2 : (matchLoop dist refs tol encs).2 = 0 := by omega
      simp [processCandidate, hp, hm1, hm2]

theorem processCandidate_matched_iff {E : Type} (dist : E → E → ℚ) (refs : List E)
    (tol : ℚ) (encs : List E) :
    (processCandidate dist refs tol (FaceScan.faces encs)).1 = MatchDecision.Matched
      ↔ ∃ e ∈ encs, ∃ r ∈ refs, dist r e ≤ tol := by
  rw [← matchLoop_pos_iff dist refs tol encs]
  by_cases hp : 0 < (matchLoop dist refs tol encs).1
  · simp [processCandidate, hp]
  · simp [processCandidate, hp]

theorem processCandidate_mono {E : Type} (dist : E → E → ℚ) (refs : List E)
    {t1 t2 : ℚ} (hle : t1 ≤ t2) (scan : FaceScan E)
    (h : (processCandidate dist refs t1 scan).1 = MatchDecision.Matched) :
    (processCandidate dist refs t2 scan).1 = MatchDecision.Matched := by
  cases scan with
  | failure e => simp [processCandidate] at h
  | noFace => simp [processCandidate] at h
  | faces encs =>
    rw [processCandidate_matched_iff] at h ⊢
    obtain ⟨e, he, r, hr, hd⟩ := h
    exact ⟨e, he, r, hr, hd.trans hle⟩

theorem scanAlbum_spec {E : Type} (dist : E → E → ℚ) (refs : List E) (tol : ℚ)
    (scanOf : String → FaceScan E) (files : List String) :
    (scanAlbum dist refs tol scanOf files).decisions
      = files.map (fun f => (f, (processCandidate dist refs tol (scanOf f)).1))
    ∧ (scanAlbum dist refs tol scanOf files).matched
      = countDecision MatchDecision.Matched (scanAlbum dist refs tol scanOf files).decisions
    ∧ (scanAlbum dist refs tol scanOf files).skipped
      = countDecision MatchDecision.NoFaceDetected (scanAlbum dist refs tol scanOf files).decisions
        + countDecision MatchDecision.ProcessingError (scanAlbum dist refs tol scanOf files).decisions
    ∧ (scanAlbum dist refs tol scanOf files).copied
      = ((scanAlbum dist refs tol scanOf files).decisions.filter
          (fun p => decide (p.2 = MatchDecision.Matched))).map Prod.fst := by
  induction files with
  | nil => simp [scanAlbum, countDecision]
  | cons f rest ih =>
    obtain ⟨ihd, ihm, ihs, ihc⟩ := ih
    rcases processCandidate_shape dist refs tol (scanOf f) with h | h | h | h <;>
      simp [scanAlbum, countDecision, h, ihd, ihm, ihs, ihc, List.filter_cons] <;> omega

theorem countDecision_total (ds : List (String × MatchDecision)) :
    countDecision MatchDecision.Matched ds + countDecision MatchDecision.NoFaceDetected ds
      + countDecision MatchDecision.ProcessingError ds
      + countDecision MatchDecision.NoMatch ds = ds.length := by
  induction ds with
  | nil => rfl
  | cons p rest ih =>
    rcases p with ⟨f, d⟩
    cases d <;> simp [countDecision, List.filter_cons] at ih ⊢ <;> omega

theorem find_ok_unfold {E : Type} (dist : E → E → ℚ)
    (refScans : List (Except String (List E))) (files : List String)
    (scanOf : String → FaceScan E) (tol : ℚ) (extsOpt : Option (List String))
    (h : (load_reference_faces refScans).isEmpty = false) :
    find_and_save_matching_faces dist refScans (Except.ok files) scanOf tol extsOpt
      = ⟨true,
          (scanAlbum dist (load_reference_faces refScans) tol scanOf
            (admittedFiles extsOpt files)).decisions,
          (scanAlbum dist (load_reference_faces refScans) tol scanOf
            (admittedFiles extsOpt files)).matched,
          (scanAlbum dist (load_reference_faces refScans) tol scanOf
            (admittedFiles extsOpt files)).skipped,
          (scanAlbum dist (load_reference_faces refScans) tol scanOf
            (admittedFiles extsOpt files)).copied⟩ := by
  simp [find_and_save_matching_faces, h]

theorem load_reference_faces_eq {E : Type} (rs : List (Except String (List E))) :
    load_reference_faces rs = rs.filterMap (fun r => match r with
      | Except.ok (e :: _) => some e
      | _ => none) := by
  induction rs with
  | nil => rfl
  | cons r rest ih =>
    cases r with
    | error e => simpa [load_reference_faces, List.filterMap_cons] using ih
    | ok l =>
      cases l with
      | nil => simpa [load_reference_faces, List.filterMap_cons] using ih
      | cons e es => simp [load_reference_faces, List.filterMap_cons, ih]

/-- C1 counterexample: a run over one admissible image whose single detected
face matches no reference increments neither counter (the code has no
`errored` counter and the no-match branch touches nothing), so the counter
total is 0 while N = 1 and no processing error occurred. -/
theorem C1_counterexample :
    (find_and_save_matching_faces (fun a b : ℚ => if a = b then 0 else 2)
        [Except.ok [(0 : ℚ)]] (Except.ok ["a.jpg"])
        (fun _ => FaceScan.faces [(5 : ℚ)]) 1 none).decisions
      = [("a.jpg", MatchDecision.NoMatch)]
    ∧ (find_and_save_matching_faces (fun a b : ℚ => if a = b then 0 else 2)
        [Except.ok [(0 : ℚ)]] (Except.ok ["a.jpg"])
        (fun _ => FaceScan.faces [(5 : ℚ)]) 1 none).matched
      + (find_and_save_matching_faces (fun a b : ℚ => if a = b then 0 else 2)
        [Except.ok [(0 : ℚ)]] (Except.ok ["a.jpg"])
        (fun _ => FaceScan.faces [(5 : ℚ)]) 1 none).skipped = 0 := by
  decide

/-- C1 (amended): with at least one usable reference embedding, a run over a
directory has `matched` = number of Matched candidates, `skipped` = number of
NoFaceDetected plus ProcessingError candidates (there is no separate
`errored` counter), NoMatch candidates increment nothing, and hence
matched + skipped + #NoMatch = N, the number of admissible images. -/
theorem C1_amended {E : Type} (dist : E → E → ℚ)
    (refScans : List (Except String (List E))) (files : List String)
    (scanOf : String → FaceScan E) (tol : ℚ) (extsOpt : Option (List String))
    (h : (load_reference_faces refScans).isEmpty = false) :
    (find_and_save_matching_faces dist refScans (Except.ok files) scanOf tol extsOpt).matched
      = countDecision MatchDecision.Matched
          (find_and_save_matching_faces dist refScans (Except.ok files) scanOf tol extsOpt).decisions
    ∧ (find_and_save_matching_faces dist refScans (Except.ok files) scanOf tol extsOpt).skipped
      = countDecision MatchDecision.NoFaceDetected
          (find_and_save_matching_faces dist refScans (Except.ok files) scanOf tol extsOpt).decisions
        + countDecision MatchDecision.ProcessingError
          (find_and_save_matching_faces dist refScans (Except.ok files) scanOf tol extsOpt).decisions
    ∧ (find_and_save_matching_faces dist refScans (Except.ok files) scanOf tol extsOpt).matched
        + (find_and_save_matching_faces dist refScans (Except.ok files) scanOf tol extsOpt).skipped
        + countDecision MatchDecision.NoMatch
            (find_and_save_matching_faces dist refScans (Except.ok files) scanOf tol extsOpt).decisions
      = (admittedFiles extsOpt files).length := by
  rw [find_ok_unfold dist refScans files scanOf tol extsOpt h]
  obtain ⟨hd, hm, hs, _⟩ :=
    scanAlbum_spec dist (load_reference_faces refScans) tol scanOf (admittedFiles extsOpt files)
  refine ⟨hm, hs, ?_⟩
  have htotal := countDecision_total
    (scanAlbum dist (load_reference_faces refScans) tol scanOf (admittedFiles extsOpt files)).decisions
  have hlen : (scanAlbum dist (load_reference_faces refScans) tol scanOf
      (admittedFiles extsOpt files)).decisions.length = (admittedFiles extsOpt files).length := by
    rw [hd, List.length_map]
  dsimp only
  rw [hm, hs]
  omega

/-- C1 witness: a concrete run with one matched, one faceless, one
non-matching and one failing candidate (plus one file filtered out by
extension): matched = 1, skipped = 2, one NoMatch, N = 4. -/
theorem C1_amended_witness :
    (find_and_save_matching_faces (fun a b : ℚ => if a = b then 0 else 2)
        [Except.ok [(0 : ℚ)]] (Except.ok ["m.jpg", "n.jpg", "x.jpg", "e.jpg", "skip.txt"])
        (fun g => if g = "m.jpg" then FaceScan.faces [(0 : ℚ)]
          else if g = "n.jpg" then FaceScan.noFace
          else if g = "x.jpg" then FaceScan.faces [(5 : ℚ)]
          else FaceScan.failure "cannot identify image file") 1 none).matched
      = countDecision MatchDecision.Matched
          (find_and_save_matching_faces (fun a b : ℚ => if a = b then 0 else 2)
            [Except.ok [(0 : ℚ)]] (Except.ok ["m.jpg", "n.jpg", "x.jpg", "e.jpg", "skip.txt"])
            (fun g => if g = "m.jpg" then FaceScan.faces [(0 : ℚ)]
              else if g = "n.jpg" then FaceScan.noFace
              else if g = "x.jpg" then FaceScan.faces [(5 : ℚ)]
              else FaceScan.failure "cannot identify image file") 1 none).decisions
    ∧ (find_and_save_matching_faces (fun a b : ℚ => if a = b then 0 else 2)
        [Except.ok [(0 : ℚ)]] (Except.ok ["m.jpg", "n.jpg", "x.jpg", "e.jpg", "skip.txt"])
        (fun g => if g = "m.jpg" then FaceScan.faces [(0 : ℚ)]
          else if g = "n.jpg" then FaceScan.noFace
          else if g = "x.jpg" then FaceScan.faces [(5 : ℚ)]
          else FaceScan.failure "cannot identify image file") 1 none).skipped
      = countDecision MatchDecision.NoFaceDetected
          (find_and_save_matching_faces (fun a b : ℚ => if a = b then 0 else 2)
            [Except.ok [(0 : ℚ)]] (Except.ok ["m.jpg", "n.jpg", "x.jpg", "e.jpg", "skip.txt"])
            (fun g => if g = "m.jpg" then FaceScan.faces [(0 : ℚ)]
              else if g = "n.jpg" then FaceScan.noFace
              else if g = "x.jpg" then FaceScan.faces [(5 : ℚ)]
              else FaceScan.failure "cannot identify image file") 1 none).decisions
        + countDecision MatchDecision.ProcessingError
          (find_and_save_matching_faces (fun a b : ℚ => if a = b then 0 else 2)
            [Except.ok [(0 : ℚ)]] (Except.ok ["m.jpg", "n.jpg", "x.jpg", "e.jpg", "skip.txt"])
            (fun g => if g = "m.jpg" then FaceScan.faces [(0 : ℚ)]
              else if g = "n.jpg" then FaceScan.noFace
              else if g = "x.jpg" then FaceScan.faces [(5 : ℚ)]
              else FaceScan.failure "cannot identify image file") 1 none).decisions
    ∧ (find_and_save_matching_faces (fun a b : ℚ => if a = b then 0 else 2)
        [Except.ok [(0 : ℚ)]] (Except.ok ["m.jpg", "n.jpg", "x.jpg", "e.jpg", "skip.txt"])
        (fun g => if g = "m.jpg" then FaceScan.faces [(0 : ℚ)]
          else if g = "n.jpg" then FaceScan.noFace
          else if g = "x.jpg" then FaceScan.faces [(5 : ℚ)]
          else FaceScan.failure "cannot identify image file") 1 none).matched
      + (find_and_save_matching_faces (fun a b : ℚ => if a = b then 0 else 2)
          [Except.ok [(0 : ℚ)]] (Except.ok ["m.jpg", "n.jpg", "x.jpg", "e.jpg", "skip.txt"])
          (fun g => if g = "m.jpg" then FaceScan.faces [(0 : ℚ)]
            else if g = "n.jpg" then FaceScan.noFace
            else if g = "x.jpg" then FaceScan.faces [(5 : ℚ)]
            else FaceScan.failure "cannot identify image file") 1 none).skipped
      + countDecision MatchDecision.NoMatch
          (find_and_save_matching_faces (fun a b : ℚ => if a = b then 0 else 2)
            [Except.ok [(0 : ℚ)]] (Except.ok ["m.jpg", "n.jpg", "x.jpg", "e.jpg", "skip.txt"])
            (fun g => if g = "m.jpg" then FaceScan.faces [(0 : ℚ)]
              else if g = "n.jpg" then FaceScan.noFace
              else if g = "x.jpg" then FaceScan.faces [(5 : ℚ)]
              else FaceScan.failure "cannot identify image file") 1 none).decisions
      = (admittedFiles none ["m.jpg", "n.jpg", "x.jpg", "e.jpg", "skip.txt"]).length :=
  C1_amended (fun a b : ℚ => if a = b then 0 else 2) [Except.ok [(0 : ℚ)]]
    ["m.jpg", "n.jpg", "x.jpg", "e.jpg", "skip.txt"]
    (fun g => if g = "m.jpg" then FaceScan.faces [(0 : ℚ)]
      else if g = "n.jpg" then FaceScan.noFace
      else if g = "x.jpg" then FaceScan.faces [(5 : ℚ)]
      else FaceScan.failure "cannot identify image file") 1 none rfl

/-- C2: for a candidate with at least one detected face, the decision is
Matched iff some detected face's embedding is within the tolerance of at
least one reference (a disjunction over faces and references); in
particular, with two references, a face matching only the second reference
still yields Matched. -/
theorem C2_or_semantics {E : Type} (dist : E → E → ℚ) (refs : List E) (tol : ℚ)
    (encs : List E) :
    ((processCandidate dist refs tol (FaceScan.faces encs)).1 = MatchDecision.Matched
      ↔ ∃ e ∈ encs, ∃ r ∈ refs, dist r e ≤ tol)
    ∧ (processCandidate (fun a b : ℚ => if a = b then 0 else 2) [(0 : ℚ), 10] 1
        (FaceScan.faces [(10 : ℚ)])).1 = MatchDecision.Matched := by
  exact ⟨processCandidate_matched_iff dist refs tol encs, by decide⟩

/-- C3: an empty reference set (e.g. every reference image had no detectable
face) makes the pipeline return zero matches with no candidate enumerated or
scanned, whatever the album directory holds. -/
theorem C3_empty_refs {E : Type} (dist : E → E → ℚ)
    (refScans : List (Except String (List E))) (listing : Except Unit (List String))
    (scanOf : String → FaceScan E) (tol : ℚ) (extsOpt : Option (List String))
    (h : load_reference_faces refScans = []) :
    find_and_save_matching_faces dist refScans listing scanOf tol extsOpt
      = ⟨false, [], 0, 0, []⟩ := by
  simp [find_and_save_matching_faces, h]

/-- C3 witness: one reference image with zero detectable faces. -/
theorem C3_empty_refs_witness :
    find_and_save_matching_faces (fun a b : ℚ => if a = b then 0 else 2)
      [Except.ok ([] : List ℚ)] (Except.ok ["a.jpg"]) (fun _ => FaceScan.noFace) 1 none
      = ⟨false, [], 0, 0, []⟩ :=
  C3_empty_refs (fun a b : ℚ => if a = b then 0 else 2) [Except.ok ([] : List ℚ)]
    (Except.ok ["a.jpg"]) (fun _ => FaceScan.noFace) 1 none rfl

/-- C4: an exception while processing one candidate is contained at that
candidate: its decision is ProcessingError and the decision of every
admitted candidate is still computed from that candidate's own scan. -/
theorem C4_containment {E : Type} (dist : E → E → ℚ)
    (refScans : List (Except String (List E))) (files : List String)
    (scanOf : String → FaceScan E) (tol : ℚ) (extsOpt : Option (List String))
    (f e : String)
    (hrefs : (load_reference_faces refScans).isEmpty = false)
    (hmem : f ∈ admittedFiles extsOpt files)
    (hf : scanOf f = FaceScan.failure e) :
    (f, MatchDecision.ProcessingError) ∈
      (find_and_save_matching_faces dist refScans (Except.ok files) scanOf tol extsOpt).decisions
    ∧ (find_and_save_matching_faces dist refScans (Except.ok files) scanOf tol extsOpt).decisions
      = (admittedFiles extsOpt files).map
          (fun g => (g, (processCandidate dist (load_reference_faces refScans) tol (scanOf g)).1)) := by
  have hd : (find_and_save_matching_faces dist refScans (Except.ok files) scanOf tol extsOpt).decisions
      = (admittedFiles extsOpt files).map
          (fun g => (g, (processCandidate dist (load_reference_faces refScans) tol (scanOf g)).1)) := by
    rw [find_ok_unfold dist refScans files scanOf tol extsOpt hrefs]
    exact (scanAlbum_spec dist (load_reference_faces refScans) tol scanOf
      (admittedFiles extsOpt files)).1
  refine ⟨?_, hd⟩
  rw [hd]
  refine List.mem_map.mpr ⟨f, hmem, ?_⟩
  rw [hf]
  rfl

/-- C4 witness: the first of two admitted candidates fails to decode; it is
tallied as ProcessingError and the second candidate is still processed. -/
theorem C4_containment_witness :
    ("a.jpg", MatchDecision.ProcessingError) ∈
      (find_and_save_matching_faces (fun a b : ℚ => if a = b then 0 else 2)
        [Except.ok [(0 : ℚ)]] (Except.ok ["a.jpg", "b.jpg"])
        (fun g => if g = "a.jpg" then FaceScan.failure "cannot identify image file"
          else FaceScan.faces [(0 : ℚ)]) 1 none).decisions
    ∧ (find_and_save_matching_faces (fun a b : ℚ => if a = b then 0 else 2)
        [Except.ok [(0 : ℚ)]] (Except.ok ["a.jpg", "b.jpg"])
        (fun g => if g = "a.jpg" then FaceScan.failure "cannot identify image file"
          else FaceScan.faces [(0 : ℚ)]) 1 none).decisions
      = (admittedFiles none ["a.jpg", "b.jpg"]).map
          (fun g => (g, (processCandidate (fun a b : ℚ => if a = b then 0 else 2)
            (load_reference_faces [Except.ok [(0 : ℚ)]]) 1
            ((fun g => if g = "a.jpg" then FaceScan.failure "cannot identify image file"
              else FaceScan.faces [(0 : ℚ)]) g)).1)) :=
  C4_containment (fun a b : ℚ => if a = b then 0 else 2) [Except.ok [(0 : ℚ)]]
    ["a.jpg", "b.jpg"]
    (fun g => if g = "a.jpg" then FaceScan.failure "cannot identify image file"
      else FaceScan.faces [(0 : ℚ)]) 1 none "a.jpg" "cannot identify image file"
    rfl (by decide) (by decide)

/-- C5: with the distance, scans and references held fixed, a candidate
classified Matched at tolerance t1 is classified Matched at any larger
tolerance t2. -/
theorem C5_tolerance_mono {E : Type} (dist : E → E → ℚ)
    (refScans : List (Except String (List E))) (listing : Except Unit (List String))
    (scanOf : String → FaceScan E) (extsOpt : Option (List String))
    (t1 t2 : ℚ) (f : String) (hlt : t1 < t2)
    (hm : (f, MatchDecision.Matched) ∈
      (find_and_save_matching_faces dist refScans listing scanOf t1 extsOpt).decisions) :
    (f, MatchDecision.Matched) ∈
      (find_and_save_matching_faces dist refScans listing scanOf t2 extsOpt).decisions := by
  by_cases h : (load_reference_faces refScans).isEmpty = true
  · simp [find_and_save_matching_faces, h] at hm
  · rw [Bool.not_eq_true] at h
    cases listing with
    | error u => simp [find_and_save_matching_faces, h] at hm
    | ok files =>
      rw [find_ok_unfold dist refScans files scanOf t1 extsOpt h] at hm
      rw [find_ok_unfold dist refScans files scanOf t2 extsOpt h]
      rw [(scanAlbum_spec dist (load_reference_faces refScans) t1 scanOf
        (admittedFiles extsOpt files)).1] at hm
      rw [(scanAlbum_spec dist (load_reference_faces refScans) t2 scanOf
        (admittedFiles extsOpt files)).1]
      obtain ⟨g, hg, heq⟩ := List.mem_map.mp hm
      rw [Prod.mk.injEq] at heq
      obtain ⟨rfl, hdec⟩ := heq
      refine List.mem_map.mpr ⟨g, hg, ?_⟩
      rw [processCandidate_mono dist (load_reference_faces refScans) (le_of_lt hlt)
        (scanOf g) hdec]

/-- C5 witness: a candidate matched at tolerance 1 is matched at
tolerance 2. -/
theorem C5_tolerance_mono_witness :
    ("a.jpg", MatchDecision.Matched) ∈
      (find_and_save_matching_faces (fun a b : ℚ => if a = b then 0 else 2)
        [Except.ok [(0 : ℚ)]] (Except.ok ["a.jpg"]) (fun _ => FaceScan.faces [(0 : ℚ)])
        2 none).decisions :=
  C5_tolerance_mono (fun a b : ℚ => if a = b then 0 else 2) [Except.ok [(0 : ℚ)]]
    (Except.ok ["a.jpg"]) (fun _ => FaceScan.faces [(0 : ℚ)]) none 1 2 "a.jpg"
    (by decide)
    (by simp [show (find_and_save_matching_faces (fun a b : ℚ => if a = b then 0 else 2)
        [Except.ok [(0 : ℚ)]] (Except.ok ["a.jpg"]) (fun _ => FaceScan.faces [(0 : ℚ)])
        1 none).decisions = [("a.jpg", MatchDecision.Matched)] from by decide])

/-- C6: reference-set construction keeps the first embedding of each
reference image whose scan succeeded with at least one face; its result is
empty iff every reference image failed or was faceless; and a failing
reference contributes nothing without aborting the construction. -/
theorem C6_reference_construction {E : Type} (refScans : List (Except String (List E))) :
    load_reference_faces refScans
      = refScans.filterMap (fun r => match r with
          | Except.ok (e :: _) => some e
          | _ => none)
    ∧ (load_reference_faces refScans = []
        ↔ ∀ r ∈ refScans, ∀ l, r = Except.ok l → l = [])
    ∧ ∀ (msg : String) (rest : List (Except String (List E))),
        load_reference_faces (Except.error msg :: rest) = load_reference_faces rest := by
  refine ⟨load_reference_faces_eq refScans, ?_, fun msg rest => rfl⟩
  rw [load_reference_faces_eq, List.filterMap_eq_nil_iff]
  constructor
  · intro h r hr l hrl
    have hnone := h r hr
    subst hrl
    cases l with
    | nil => rfl
    | cons e es => simp at hnone
  · intro h r hr
    cases r with
    | error e => rfl
    | ok l =>
      have hl := h (Except.ok l) hr l rfl
      subst hl
      rfl

/-- C7: a file is admitted iff its extension, lowercased, is in the
lowercased allow-list (default .jpg .jpeg .png .bmp .gif); in particular
PHOTO.JPG is admitted under the default allow-list. -/
theorem C7_extension_filter (files : List String) (extsOpt : Option (List String))
    (f : String) :
    (f ∈ admittedFiles extsOpt files
      ↔ f ∈ files ∧ (splitext (pyLower f)).2 ∈ (extsOpt.getD defaultExtensions).map pyLower)
    ∧ "PHOTO.JPG" ∈ admittedFiles none ["PHOTO.JPG"] := by
  constructor
  · simp [admittedFiles, List.mem_filter]
  · decide

/-- C8: in CLI mode, an album path that does not exist makes
`validate_paths` return an empty list and the `[0]` subscript on line 273
raises an uncaught IndexError — a stack trace escapes instead of the
promised diagnostic-plus-summary. -/
theorem C8_cli_crash :
    mainCLI (fun a b : ℚ => if a = b then 0 else 2) id
      (fun p => p != "/missing/album")
      (fun _ => Except.error "unused") (Except.ok []) (fun _ => FaceScan.noFace)
      "/missing/album" "/out" ["/ref.jpg"] 1 defaultExtensions
      = CLIOutcome.uncaughtException "IndexError: list index out of range" := by
  decide

/-- C9: a file is copied iff its decision is Matched, each candidate is
copied at most once (the face loop breaks at the first match), and the
matched counter equals the number of copy operations performed. -/
theorem C9_copy_iff_matched {E : Type} (dist : E → E → ℚ)
    (refScans : List (Except String (List E))) (listing : Except Unit (List String))
    (scanOf : String → FaceScan E) (tol : ℚ) (extsOpt : Option (List String)) :
    (find_and_save_matching_faces dist refScans listing scanOf tol extsOpt).copied
      = ((find_and_save_matching_faces dist refScans listing scanOf tol extsOpt).decisions.filter
          (fun p => decide (p.2 = MatchDecision.Matched))).map Prod.fst
    ∧ (find_and_save_matching_faces dist refScans listing scanOf tol extsOpt).matched
      = (find_and_save_matching_faces dist refScans listing scanOf tol extsOpt).copied.length := by
  by_cases h : (load_reference_faces refScans).isEmpty = true
  · simp [find_and_save_matching_faces, h]
  · rw [Bool.not_eq_true] at h
    cases listing with
    | error u => simp [find_and_save_matching_faces, h]
    | ok files =>
      rw [find_ok_unfold dist refScans files scanOf tol extsOpt h]
      obtain ⟨_, hm, _, hc⟩ := scanAlbum_spec dist (load_reference_faces refScans) tol scanOf
        (admittedFiles extsOpt files)
      refine ⟨hc, ?_⟩
      dsimp only
      rw [hm, hc, countDecision, List.length_map]

/-- C10: in the duplicate script `test.py`, an exception on the first
candidate aborts the whole scan (no per-candidate containment), and a
failing reference image aborts reference loading. -/
theorem C10_strict_propagation {E : Type} (dist : E → E → ℚ)
    (refScans : List (Except String (List E))) (refs : List E)
    (scanOf : String → FaceScan E) (f : String) (rest : List String) (e msg : String)
    (hrefs : loadRefsStrict refScans = Except.ok refs)
    (hne : refs.isEmpty = false)
    (hf : scanOf f = FaceScan.failure e) :
    find_and_save_specific_face dist refScans (f :: rest) scanOf = Except.error e
    ∧ loadRefsStrict (Except.error msg :: refScans) = Except.error msg := by
  constructor
  · rw [find_and_save_specific_face, hrefs]
    simp only [hne, Bool.false_eq_true, if_false]
    rw [scanLoopStrict, hf]
  · rfl

/-- C10 witness: one good reference, first candidate raises while loading;
the whole scan aborts with that error even though a second candidate was
pending. -/
theorem C10_strict_propagation_witness :
    find_and_save_specific_face (fun a b : ℚ => if a = b then 0 else 2)
      [Except.ok [(0 : ℚ)]] ["bad.jpg", "b.jpg"]
      (fun g => if g = "bad.jpg" then FaceScan.failure "cannot identify image file"
        else FaceScan.faces [(0 : ℚ)])
      = Except.error "cannot identify image file"
    ∧ loadRefsStrict (Except.error "read error" :: [Except.ok [(0 : ℚ)]])
      = Except.error "read error" :=
  C10_strict_propagation (fun a b : ℚ => if a = b then 0 else 2)
    [Except.ok [(0 : ℚ)]] [(0 : ℚ)]
    (fun g => if g = "bad.jpg" then FaceScan.failure "cannot identify image file"
      else FaceScan.faces [(0 : ℚ)])
    "bad.jpg" ["b.jpg"] "cannot identify image file" "read error" rfl rfl (by decide)

end FindFace
